import Mathlib

/-!
Verification development for the sofull-site Identity Session and
Notification Consistency Layer.

Server side: a shallow embedding of api/auth-email.js — the pure send-plan
computation, the deterministic event-id derivation, the transactional claim
step, the per-event failure/success recording, the final merge-write, and the
fixed-window rate limiter.  JavaScript numbers are modelled as Int and
JavaScript truthiness of a nullable number (null, undefined and 0 are falsy)
is modelled by jsTruthy.  Firestore single-document transactions are modelled
as atomic pure state transitions; a whole dispatcher invocation is the
function runDispatch, parameterised by the outcome of each external email
provider call and by the wall-clock values observed at each call site.

Client side: a shallow embedding of src/hooks/useGoogleAuth.ts — the
persisted credential storage with legacy-key migration, the session expiry
check and forced logout, the in-memory token state machine, and the network
call counting of getAccessToken / refreshAccessToken.
-/

/-- JavaScript truthiness of a nullable number: null and 0 are falsy. -/
def jsTruthy : Option Int → Bool
  | none => false
  | some x => decide (x ≠ 0)

/-- The numeric value of a nullable number, 0 when absent. -/
def jsVal : Option Int → Int
  | none => 0
  | some x => x

/-- JavaScript a || b for a nullable number a and a number b. -/
def jsOrInt (a : Option Int) (b : Int) : Int :=
  if jsTruthy a then jsVal a else b

/-- Status of a recorded email event: pending, sent or failed. -/
inductive Status
  | pending
  | sent
  | failed
  deriving DecidableEq

/-- The two notification event types of the dispatcher. -/
inductive EvType
  | welcome
  | login
  deriving DecidableEq

/-- The Firestore key under which an event type is stored in emailEvents. -/
def evTypeName : EvType → String
  | EvType.welcome => "welcome"
  | EvType.login => "login"

/-- One emailEvents entry (EmailEvent in the data model). -/
structure EmailEvent where
  eventId : String
  status : Status
  createdAt : Int
  authTimeMs : Option Int
  sentAt : Option Int := none
  failedAt : Option Int := none
  deriving DecidableEq

/-- The per-user EmailState document.  The emailEvents map has exactly the
two possible keys, modelled as two optional fields. -/
structure EmailState where
  welcomeSent : Bool := false
  welcomeSentAt : Option Int := none
  lastAuthEventTime : Option Int := none
  lastLoginEmailAt : Option Int := none
  welcomeEvent : Option EmailEvent := none
  loginEvent : Option EmailEvent := none
  email : Option String := none
  displayName : Option String := none
  deriving DecidableEq

/-- Read the emailEvents entry for an event type. -/
def getEvent (s : EmailState) : EvType → Option EmailEvent
  | EvType.welcome => s.welcomeEvent
  | EvType.login => s.loginEvent

/-- Merge-write the emailEvents entry for one event type, leaving the other
entry and every top-level field untouched. -/
def setEvent (s : EmailState) (t : EvType) (e : EmailEvent) : EmailState :=
  match t with
  | EvType.welcome => { s with welcomeEvent := some e }
  | EvType.login => { s with loginEvent := some e }

/-- Result of computeEmailPlan. -/
structure EmailPlan where
  shouldSendWelcome : Bool
  shouldSendLogin : Bool
  isDuplicateAuthEvent : Bool
  deriving DecidableEq

/-- computeEmailPlan from api/auth-email.js (lines 681-702).  The guards
`authTimeMs && lastAuthEventTime` and `!authTimeMs && loginCooldownMs > 0 &&
lastLoginEmailAt` use JavaScript truthiness, so a present-but-zero timestamp
behaves like an absent one. -/
def computeEmailPlan (state : EmailState) (now : Int) (authTimeMs : Option Int)
    (loginCooldownMs : Int) : EmailPlan :=
  let welcomeSent := state.welcomeSent
  let lastAuthEventTime := state.lastAuthEventTime
  let lastLoginEmailAt := state.lastLoginEmailAt
  let shouldSendWelcome := !welcomeSent
  let isDuplicateAuthEvent :=
    jsTruthy authTimeMs && jsTruthy lastAuthEventTime &&
      decide (jsVal authTimeMs ≤ jsVal lastAuthEventTime)
  let shouldSendLogin := !shouldSendWelcome && !isDuplicateAuthEvent
  let shouldSendLogin :=
    if !jsTruthy authTimeMs && decide (loginCooldownMs > 0) && jsTruthy lastLoginEmailAt &&
        decide (now - jsVal lastLoginEmailAt < loginCooldownMs) then
      false
    else shouldSendLogin
  { shouldSendWelcome := shouldSendWelcome
    shouldSendLogin := shouldSendLogin
    isDuplicateAuthEvent := isDuplicateAuthEvent }

/-- buildEmailEventId from api/auth-email.js (lines 818-821):
timeKey = authTimeMs || fallbackTime, eventId = type_timeKey. -/
def buildEmailEventId (type : String) (authTimeMs : Option Int) (fallbackTime : Int) : String :=
  let timeKey := jsOrInt authTimeMs fallbackTime
  type ++ "_" ++ toString timeKey

/-- Result of the transactional claim step. -/
structure ClaimResult where
  claimed : Bool
  eventId : String
  event : Option EmailEvent
  deriving DecidableEq

/-- The already-claimed test of the claim transaction (line 836):
existing eventId equals the derived eventId and existing status is not
failed; optional chaining on a missing entry makes the test false. -/
def alreadyClaimed (existing : Option EmailEvent) (eventId : String) : Bool :=
  match existing with
  | some ev => decide (ev.eventId = eventId) && decide (ev.status ≠ Status.failed)
  | none => false

/-- The fresh pending entry written by the claim transaction (lines
840-845); a falsy authTimeMs is recorded as null. -/
def pendingEventFor (t : EvType) (authTimeMs : Option Int) (now : Int) : EmailEvent :=
  { eventId := buildEmailEventId (evTypeName t) authTimeMs now
    status := Status.pending
    createdAt := now
    authTimeMs := if jsTruthy authTimeMs then authTimeMs else none }

/-- claimEmailEventInState from api/auth-email.js (lines 828-860), as the
pure state transition performed by the Firestore transaction: if the stored
entry for the type already carries the same eventId with status other than
failed, the claim is a no-op; otherwise a pending entry (with authTimeMs
nulled when falsy) is merge-written for that type. -/
def claimEmailEventInState (state : EmailState) (t : EvType) (authTimeMs : Option Int)
    (now : Int) : ClaimResult × EmailState :=
  let eventId := buildEmailEventId (evTypeName t) authTimeMs now
  let existing := getEvent state t
  if alreadyClaimed existing eventId then
    ({ claimed := false, eventId := eventId, event := existing }, state)
  else
    let nextEvent := pendingEventFor t authTimeMs now
    ({ claimed := true, eventId := eventId, event := some nextEvent },
      setEvent state t nextEvent)

/-- buildEventUpdate from api/auth-email.js (lines 862-868). -/
def buildEventUpdate (event : EmailEvent) (status : Status) (timestamp : Int) : EmailEvent :=
  { eventId := event.eventId
    status := status
    authTimeMs := if jsTruthy event.authTimeMs then event.authTimeMs else none
    createdAt := if decide (event.createdAt ≠ 0) then event.createdAt else timestamp
    sentAt := if status = Status.sent then some timestamp else none
    failedAt := if status = Status.sent then none else some timestamp }

/-- The top-level merge-write payload built by buildEmailStateUpdates. -/
structure EmailStateUpdates where
  email : String
  displayName : String
  welcomeSent : Option Bool := none
  welcomeSentAt : Option Int := none
  lastAuthEventTime : Option Int := none
  lastLoginEmailAt : Option Int := none
  deriving DecidableEq

/-- buildEmailStateUpdates from api/auth-email.js (lines 704-728).  The guard
`authTimeMs && (shouldSendWelcome || shouldSendLogin)` uses truthiness, so a
zero authTimeMs never updates lastAuthEventTime. -/
def buildEmailStateUpdates (email displayName : String) (now : Int) (authTimeMs : Option Int)
    (shouldSendWelcome shouldSendLogin : Bool) : EmailStateUpdates :=
  { email := email
    displayName := displayName
    welcomeSent := if shouldSendWelcome then some true else none
    welcomeSentAt := if shouldSendWelcome then some now else none
    lastAuthEventTime :=
      if jsTruthy authTimeMs && (shouldSendWelcome || shouldSendLogin) then authTimeMs else none
    lastLoginEmailAt := if shouldSendLogin then some now else none }

/-- Firestore merge semantics of the final stateRef.set(updates, merge) for
the top-level fields: fields present in the payload overwrite, absent fields
are preserved. -/
def applyUpdates (s : EmailState) (u : EmailStateUpdates) : EmailState :=
  { s with
    email := some u.email
    displayName := some u.displayName
    welcomeSent := u.welcomeSent.getD s.welcomeSent
    welcomeSentAt := match u.welcomeSentAt with | some v => some v | none => s.welcomeSentAt
    lastAuthEventTime :=
      match u.lastAuthEventTime with | some v => some v | none => s.lastAuthEventTime
    lastLoginEmailAt :=
      match u.lastLoginEmailAt with | some v => some v | none => s.lastLoginEmailAt }

/-- The wall-clock values observed by one dispatcher invocation: now is the
single Date.now() taken before planning (line 1070); welcomeDone and
loginDone are the Date.now() values observed when the welcome and login
provider calls resolve; mergeNow is the Date.now() fallback used while
assembling the final merge payload. -/
structure EmailTimes where
  now : Int
  welcomeDone : Int
  loginDone : Int
  mergeNow : Int
  deriving DecidableEq

/-- HTTP-visible outcome of the dispatcher core: the 200 skipped response,
the 200 ok response with its sentWelcome and sentLogin flags, or the 502
error response. -/
inductive DispatchResult
  | skipped
  | ok (sentWelcome sentLogin : Bool)
  | err502
  deriving DecidableEq

/-- Full outcome of one dispatcher invocation: the response, whether a
welcome and a login email were physically delivered by the provider, and the
final stored EmailState. -/
structure DispatchOutcome where
  response : DispatchResult
  sentWelcomeEmail : Bool
  sentLoginEmail : Bool
  finalState : EmailState
  deriving DecidableEq

/-- One send phase of the handler (the welcome block at lines 1121-1163 and
the identical login block at lines 1165-1208): when the plan flag is set,
claim the event; if claimed, attempt the provider call; on success keep the
in-memory event with its sentAt; on failure merge-write the failed entry and
abort (Sum.inl carries the aborted state, turned into a 502 by the caller). -/
def sendPhase (shouldSend : Bool) (t : EvType) (s : EmailState) (authTimeMs : Option Int)
    (now tDone : Int) (sendOk : Bool) :
    EmailState ⊕ (Bool × Option EmailEvent × EmailState) :=
  if shouldSend then
    let claimed := claimEmailEventInState s t authTimeMs now
    let claim := claimed.1
    let s1 := claimed.2
    if claim.claimed then
      match claim.event with
      | some ev =>
        if sendOk then
          Sum.inr (true, some { ev with sentAt := some tDone }, s1)
        else
          Sum.inl (setEvent s1 t (buildEventUpdate ev Status.failed tDone))
      | none => Sum.inr (false, none, s1)
    else
      Sum.inr (false, none, s1)
  else
    Sum.inr (false, none, s)

/-- The dispatcher core (handler lines 1070-1260, after authentication):
compute the plan from the loaded state; short-circuit with skipped when
neither flag is set; otherwise run the welcome phase then the login phase,
where a provider failure aborts with 502; finally, when something was sent,
merge-write the top-level updates and the sent event records. -/
def runDispatch (s0 : EmailState) (tm : EmailTimes) (authTimeMs : Option Int)
    (loginCooldownMs : Int) (email displayName : String)
    (welcomeSendOk loginSendOk : Bool) : DispatchOutcome :=
  let plan := computeEmailPlan s0 tm.now authTimeMs loginCooldownMs
  if plan.shouldSendWelcome = false ∧ plan.shouldSendLogin = false then
    { response := DispatchResult.skipped
      sentWelcomeEmail := false
      sentLoginEmail := false
      finalState := s0 }
  else
    match sendPhase plan.shouldSendWelcome EvType.welcome s0 authTimeMs tm.now
        tm.welcomeDone welcomeSendOk with
    | Sum.inl sFail =>
      { response := DispatchResult.err502
        sentWelcomeEmail := false
        sentLoginEmail := false
        finalState := sFail }
    | Sum.inr (sentW, wEv, s1) =>
      match sendPhase plan.shouldSendLogin EvType.login s1 authTimeMs tm.now
          tm.loginDone loginSendOk with
      | Sum.inl sFail =>
        { response := DispatchResult.err502
          sentWelcomeEmail := sentW
          sentLoginEmail := false
          finalState := sFail }
      | Sum.inr (sentL, lEv, s2) =>
        if sentW || sentL then
          let u := buildEmailStateUpdates email displayName tm.now authTimeMs sentW sentL
          let s3 := applyUpdates s2 u
          let s4 :=
            if sentW then
              match wEv with
              | some ev =>
                setEvent s3 EvType.welcome
                  (buildEventUpdate ev Status.sent (jsOrInt ev.sentAt tm.mergeNow))
              | none => s3
            else s3
          let s5 :=
            if sentL then
              match lEv with
              | some ev =>
                setEvent s4 EvType.login
                  (buildEventUpdate ev Status.sent (jsOrInt ev.sentAt tm.mergeNow))
              | none => s4
            else s4
          { response := DispatchResult.ok sentW sentL
            sentWelcomeEmail := sentW
            sentLoginEmail := sentL
            finalState := s5 }
        else
          { response := DispatchResult.ok sentW sentL
            sentWelcomeEmail := sentW
            sentLoginEmail := sentL
            finalState := s2 }

/-- Rate limit configuration; getRateLimitConfig defaults to a 600 second
window and 5 requests. -/
structure RateLimitConfig where
  windowMs : Int
  maxRequests : Nat
  deriving DecidableEq

/-- The default configuration produced by getRateLimitConfig when no
environment overrides are set. -/
def defaultRateLimitConfig : RateLimitConfig :=
  { windowMs := 600000, maxRequests := 5 }

/-- One RATE_LIMIT_STORE entry for a client IP. -/
structure RateLimitEntry where
  count : Nat
  resetAt : Int
  deriving DecidableEq

/-- What checkRateLimit reports to the handler. -/
structure RateLimitResult where
  allowed : Bool
  remaining : Nat
  resetAt : Int
  deriving DecidableEq

/-- checkRateLimit from api/auth-email.js (lines 894-911), for one key: a
missing or reset-expired entry starts a fresh window with count 1 and is
allowed; otherwise the count is incremented and the request is allowed while
the count stays within maxRequests.  Returns the result together with the
updated store entry for the key. -/
def checkRateLimit (entry : Option RateLimitEntry) (config : RateLimitConfig)
    (timestamp : Int) : RateLimitResult × RateLimitEntry :=
  match entry with
  | none =>
    let next : RateLimitEntry := { count := 1, resetAt := timestamp + config.windowMs }
    ({ allowed := true, remaining := config.maxRequests - 1, resetAt := next.resetAt }, next)
  | some e =>
    if timestamp ≥ e.resetAt then
      let next : RateLimitEntry := { count := 1, resetAt := timestamp + config.windowMs }
      ({ allowed := true, remaining := config.maxRequests - 1, resetAt := next.resetAt }, next)
    else
      let next : RateLimitEntry := { count := e.count + 1, resetAt := e.resetAt }
      ({ allowed := decide (next.count ≤ config.maxRequests)
         remaining := config.maxRequests - next.count
         resetAt := e.resetAt }, next)

/-- Ceiling division of integers, as Math.ceil of the real quotient. -/
def jsCeilDiv (a b : Int) : Int := -(Int.fdiv (-a) b)

/-- The Retry-After value computed by the handler at line 1019:
Math.max(1, Math.ceil((resetAt - now) / 1000)). -/
def retryAfterSeconds (resetAt now : Int) : Int :=
  max 1 (jsCeilDiv (resetAt - now) 1000)

/-!  Client side: useGoogleAuth.ts.  -/

/-- ACCESS_TOKEN_LIFETIME_MS with its default of 50 minutes (the
VITE_ACCESS_TOKEN_TTL_MS override is guaranteed positive by the
initialiser, so every configuration keeps the constant positive). -/
def ACCESS_TOKEN_LIFETIME_MS : Int := 50 * 60 * 1000

/-- A parsed PersistedCredentialEntry as stored under the token keys.  The
JSON round trip of parseStoredToken after persistTokenEntry is modelled as
the identity on well-formed entries; malformed or absent raw values are both
modelled as an absent entry. -/
structure StoredTokenEntry where
  token : String
  storedAt : Int
  expiresAt : Option Int
  deriving DecidableEq

/-- The four localStorage slots the credential and session lifecycle touches:
the current and legacy access token keys and the current and legacy session
start keys. -/
structure ClientStorage where
  accessTokenKey : Option StoredTokenEntry
  legacyAccessTokenKey : Option StoredTokenEntry
  sessionStartKey : Option Int
  legacySessionStartKey : Option Int
  deriving DecidableEq

/-- persistTokenEntry from useGoogleAuth.ts (lines 104-116): a null entry
removes both token keys; otherwise the entry is written to the current key
and the legacy key is removed. -/
def persistTokenEntry (st : ClientStorage) (entry : Option StoredTokenEntry) : ClientStorage :=
  match entry with
  | none => { st with accessTokenKey := none, legacyAccessTokenKey := none }
  | some e => { st with accessTokenKey := some e, legacyAccessTokenKey := none }

/-- persistSessionStart from useGoogleAuth.ts (lines 170-182). -/
def persistSessionStart (st : ClientStorage) (timestamp : Option Int) : ClientStorage :=
  match timestamp with
  | none => { st with sessionStartKey := none, legacySessionStartKey := none }
  | some v => { st with sessionStartKey := some v, legacySessionStartKey := none }

/-- fallbackExpiresAt from useGoogleAuth.ts (lines 118-121). -/
def fallbackExpiresAt (storedAt : Int) : Option Int :=
  if ACCESS_TOKEN_LIFETIME_MS > 0 then some (storedAt + ACCESS_TOKEN_LIFETIME_MS) else none

/-- computeExpiresAt from useGoogleAuth.ts (lines 123-128): a finite
positive expiresInMs wins, otherwise the fallback TTL applies. -/
def computeExpiresAt (storedAt : Int) (expiresInMs : Option Int) : Option Int :=
  if jsTruthy expiresInMs && decide (jsVal expiresInMs > 0) then
    some (storedAt + jsVal expiresInMs)
  else fallbackExpiresAt storedAt

/-- The pair returned by toTokenState and readStoredToken. -/
structure TokenReadState where
  token : Option String
  expiresAt : Option Int
  deriving DecidableEq

/-- toTokenState from useGoogleAuth.ts (lines 130-136): the entry expiry or
the fallback TTL; an entry past that instant yields no token. -/
def toTokenState (nowT : Int) (entry : StoredTokenEntry) : TokenReadState :=
  let expiresAt := match entry.expiresAt with
    | some v => some v
    | none => fallbackExpiresAt entry.storedAt
  if jsTruthy expiresAt && decide (nowT > jsVal expiresAt) then
    { token := none, expiresAt := none }
  else
    { token := some entry.token, expiresAt := expiresAt }

/-- readStoredToken from useGoogleAuth.ts (lines 138-150): prefer the
current key; when absent, read the legacy key, and only when the legacy
entry still yields a token copy it forward to the current key (deleting the
legacy key).  Returns the token state and the storage after any migration. -/
def readStoredToken (st : ClientStorage) (nowT : Int) : TokenReadState × ClientStorage :=
  match st.accessTokenKey with
  | some primary => (toTokenState nowT primary, st)
  | none =>
    match st.legacyAccessTokenKey with
    | some legacy =>
      let state := toTokenState nowT legacy
      if state.token.isSome then
        (state, persistTokenEntry st (some legacy))
      else
        (state, st)
    | none => ({ token := none, expiresAt := none }, st)

/-- isSessionExpired from useGoogleAuth.ts (lines 184-185), with the
SESSION_DURATION_MS module constant made an explicit parameter. -/
def isSessionExpired (sessionDurationMs sessionStartMs now : Int) : Bool :=
  decide (now - sessionStartMs ≥ sessionDurationMs)

/-- The storage effect of forceSessionLogout (lines 426-443): persistToken
null clears both token keys and updateSessionStart null clears both session
keys; identity-provider sign-out failures do not prevent this wipe. -/
def forceSessionLogoutStorage (st : ClientStorage) : ClientStorage :=
  persistSessionStart (persistTokenEntry st none) none

/-- checkSessionExpiry from useGoogleAuth.ts (lines 480-484): when the
session is expired, forceSessionLogout runs; returns whether the logout was
invoked and the resulting storage. -/
def checkSessionExpiry (sessionDurationMs sessionStartMs now : Int)
    (st : ClientStorage) : Bool × ClientStorage :=
  if isSessionExpired sessionDurationMs sessionStartMs now then
    (true, forceSessionLogoutStorage st)
  else
    (false, st)

/-- The in-memory token state of the hook: accessToken,
accessTokenExpiresAt and the tokenExpired flag. -/
structure TokenState where
  accessToken : Option String
  accessTokenExpiresAt : Option Int
  tokenExpired : Bool
  deriving DecidableEq

/-- The operations that can change the in-memory token state.  applySuccess
is applyAccessToken invoked with a token, which in the source happens only
with a token freshly returned by a network sign-in or refresh flow;
applyNull is applyAccessToken with null; expireA is expireToken;
clearExpired is clearTokenExpired; signOutA and forceLogoutA are the token
state effects of signOutUser and forceSessionLogout; pollTick is one firing
of the expiry-poll checkExpiry at lines 509-513. -/
inductive TokenAction
  | applySuccess (token : String) (storedAt : Int) (expiresInMs : Option Int)
  | applyNull
  | expireA
  | clearExpired
  | signOutA
  | forceLogoutA
  | pollTick (now : Int)
  deriving DecidableEq

/-- Whether the action carries the result of a network round trip: only
applyAccessToken with a fresh token does. -/
def isNetworkAction : TokenAction → Bool
  | TokenAction.applySuccess _ _ _ => true
  | _ => false

/-- The token state transition function assembled from applyAccessToken
(lines 332-345), expireToken (347-350), clearTokenExpired (580), the
sign-out paths, and the checkExpiry poll (509-513). -/
def stepToken (s : TokenState) : TokenAction → TokenState
  | TokenAction.applySuccess _token storedAt expiresInMs =>
    let expiresAt := computeExpiresAt storedAt expiresInMs
    { accessToken := some _token
      accessTokenExpiresAt := expiresAt
      tokenExpired := jsTruthy expiresAt && decide (storedAt ≥ jsVal expiresAt) }
  | TokenAction.applyNull =>
    { accessToken := none, accessTokenExpiresAt := none, tokenExpired := s.tokenExpired }
  | TokenAction.expireA =>
    { accessToken := none, accessTokenExpiresAt := none, tokenExpired := true }
  | TokenAction.clearExpired =>
    { s with tokenExpired := false }
  | TokenAction.signOutA =>
    { accessToken := none, accessTokenExpiresAt := none, tokenExpired := false }
  | TokenAction.forceLogoutA =>
    { accessToken := none, accessTokenExpiresAt := none, tokenExpired := false }
  | TokenAction.pollTick now =>
    if s.accessToken.isSome && jsTruthy s.accessTokenExpiresAt &&
        decide (now ≥ jsVal s.accessTokenExpiresAt) then
      { accessToken := none, accessTokenExpiresAt := none, tokenExpired := true }
    else s

/-- Number of network requests (silent refresh round trips plus interactive
login flows) performed by one refreshAccessToken call (lines 352-409), as a
function of the platform, the options, the token visible in
accessTokenRef.current when the call starts, and whether the silent refresh
succeeds.  On the web platform the function returns the current token
without any network activity. -/
def refreshAccessTokenNetworkCalls (isNative interactive force : Bool)
    (currentToken : Option String) (silentSucceeds : Bool) : Nat :=
  if isNative then
    if interactive = false then
      if force || currentToken.isNone then 1 else 0
    else
      1 + (if silentSucceeds then 0 else 1)
  else 0

/-- Number of network requests performed by one getAccessToken call (lines
411-424): zero on the web platform or when a token is present and no force
refresh is requested, otherwise those of the refreshAccessToken call it
makes. -/
def getAccessTokenNetworkCalls (isNative interactive forceRefresh : Bool)
    (currentToken : Option String) (silentSucceeds : Bool) : Nat :=
  if isNative = false then 0
  else if forceRefresh || currentToken.isNone then
    refreshAccessTokenNetworkCalls isNative interactive forceRefresh currentToken silentSucceeds
  else 0

/-- Total network requests of n concurrent getAccessToken calls that all
begin while accessTokenRef.current is null.  The hook keeps no pending
refresh handle and no other shared guard, so each concurrent caller reaches
refreshAccessToken independently and the total is the sum of the per-call
counts. -/
def concurrentGetAccessTokenNetworkCalls (n : Nat) (isNative interactive forceRefresh : Bool)
    (silentSucceeds : Bool) : Nat :=
  n * getAccessTokenNetworkCalls isNative interactive forceRefresh none silentSucceeds

/-- A sequence of rate-limit checks for one client IP, threading the store
entry from request to request. -/
def processRequests (entry : Option RateLimitEntry) (config : RateLimitConfig) :
    List Int → List RateLimitResult × Option RateLimitEntry
  | [] => ([], entry)
  | t :: ts =>
    let p := checkRateLimit entry config t
    let rest := processRequests (some p.2) config ts
    (p.1 :: rest.1, rest.2)

/-!  Spec-worded send-plan definitions, for comparison with the code.  -/

/-- Written from the spec sentence: isDuplicateAuthEvent = authTimeMs is not
null and lastAuthEventTime is not null and authTimeMs is at most
lastAuthEventTime. -/
def isDuplicateAuthEventSpec (authTimeMs lastAuthEventTime : Option Int) : Bool :=
  match authTimeMs, lastAuthEventTime with
  | some a, some l => decide (a ≤ l)
  | _, _ => false

/-- Written from the spec sentence: shouldSendLogin is further suppressed
when authTimeMs is unavailable (null), a positive login cooldown is
configured, and now minus the last login notification time is below the
cooldown. -/
def loginCooldownSuppressedSpec (now : Int) (authTimeMs : Option Int) (loginCooldownMs : Int)
    (lastLoginEmailAt : Option Int) : Bool :=
  decide (authTimeMs = none) && decide (loginCooldownMs > 0) &&
    (match lastLoginEmailAt with
     | some v => decide (now - v < loginCooldownMs)
     | none => false)

/-- The send plan exactly as the spec words it (claim C2). -/
def computeEmailPlanSpec (state : EmailState) (now : Int) (authTimeMs : Option Int)
    (loginCooldownMs : Int) : EmailPlan :=
  let shouldSendWelcome := !state.welcomeSent
  let isDuplicateAuthEvent := isDuplicateAuthEventSpec authTimeMs state.lastAuthEventTime
  let shouldSendLogin :=
    !shouldSendWelcome && !isDuplicateAuthEvent &&
      !loginCooldownSuppressedSpec now authTimeMs loginCooldownMs state.lastLoginEmailAt
  { shouldSendWelcome := shouldSendWelcome
    shouldSendLogin := shouldSendLogin
    isDuplicateAuthEvent := isDuplicateAuthEvent }

/-- The duplicate test as the code actually behaves, worded like the spec
but with present-and-nonzero in place of non-null (amended claim C2). -/
def isDuplicateAuthEventAmended (authTimeMs lastAuthEventTime : Option Int) : Bool :=
  match authTimeMs, lastAuthEventTime with
  | some a, some l => decide (a ≠ 0) && decide (l ≠ 0) && decide (a ≤ l)
  | _, _ => false

/-- The cooldown suppression as the code actually behaves: authTimeMs absent
or zero, a positive cooldown, and a present nonzero last login notification
time less than one cooldown ago (amended claim C2). -/
def loginCooldownSuppressedAmended (now : Int) (authTimeMs : Option Int) (loginCooldownMs : Int)
    (lastLoginEmailAt : Option Int) : Bool :=
  (match authTimeMs with
   | none => true
   | some a => decide (a = 0)) &&
  decide (loginCooldownMs > 0) &&
  (match lastLoginEmailAt with
   | some v => decide (v ≠ 0) && decide (now - v < loginCooldownMs)
   | none => false)

/-- The send plan as the amended claim C2 words it. -/
def computeEmailPlanAmended (state : EmailState) (now : Int) (authTimeMs : Option Int)
    (loginCooldownMs : Int) : EmailPlan :=
  let shouldSendWelcome := !state.welcomeSent
  let isDuplicateAuthEvent := isDuplicateAuthEventAmended authTimeMs state.lastAuthEventTime
  let shouldSendLogin :=
    !shouldSendWelcome && !isDuplicateAuthEvent &&
      !loginCooldownSuppressedAmended now authTimeMs loginCooldownMs state.lastLoginEmailAt
  { shouldSendWelcome := shouldSendWelcome
    shouldSendLogin := shouldSendLogin
    isDuplicateAuthEvent := isDuplicateAuthEvent }

/-!  Concrete inputs used by counterexamples and witnesses.  -/

/-- An EmailState whose welcome email has long been sent, as left by a
first sign-in whose identity assertion carried no usable auth_time. -/
def stateWelcomeDone : EmailState := { welcomeSent := true }

/-- Wall-clock values for a dispatcher invocation at time 1000. -/
def timesAt1000 : EmailTimes :=
  { now := 1000, welcomeDone := 1000, loginDone := 1000, mergeNow := 1000 }

/-- Wall-clock values for a dispatcher invocation at time 2000. -/
def timesAt2000 : EmailTimes :=
  { now := 2000, welcomeDone := 2000, loginDone := 2000, mergeNow := 2000 }

/-- A legacy-key token entry that expired at time 100. -/
def legacyExpiredEntry : StoredTokenEntry :=
  { token := "legacy-token", storedAt := 0, expiresAt := some 100 }

/-- A legacy-key token entry still valid well past time 200. -/
def legacyValidEntry : StoredTokenEntry :=
  { token := "legacy-token", storedAt := 0, expiresAt := some 500000 }

/-- Storage holding only the expired legacy token entry. -/
def storageWithExpiredLegacy : ClientStorage :=
  { accessTokenKey := none
    legacyAccessTokenKey := some legacyExpiredEntry
    sessionStartKey := none
    legacySessionStartKey := none }

/-- Storage holding only the still-valid legacy token entry. -/
def storageWithValidLegacy : ClientStorage :=
  { accessTokenKey := none
    legacyAccessTokenKey := some legacyValidEntry
    sessionStartKey := none
    legacySessionStartKey := none }

/-- Storage as it looks for a signed-in user: a current token entry and a
session start. -/
def storageSignedIn : ClientStorage :=
  { accessTokenKey := some { token := "tok", storedAt := 50, expiresAt := some 400 }
    legacyAccessTokenKey := none
    sessionStartKey := some 50
    legacySessionStartKey := none }

/-- The failed record the handler merge-writes when the provider call for a
freshly claimed event throws (lines 1150-1159 and 1195-1204): the pending
entry of the claim, overwritten to failed at the failure instant. -/
def failedEventRecord (t : EvType) (a : Option Int) (now tDone : Int) : EmailEvent :=
  buildEventUpdate (pendingEventFor t a now) Status.failed tDone

/-!  Helper lemmas about the dispatcher state.  -/

theorem getEvent_setEvent_same (s : EmailState) (t : EvType) (e : EmailEvent) :
    getEvent (setEvent s t e) t = some e := by
  cases t <;> rfl

theorem setEvent_setEvent (s : EmailState) (t : EvType) (e1 e2 : EmailEvent) :
    setEvent (setEvent s t e1) t e2 = setEvent s t e2 := by
  cases t <;> rfl

theorem setEvent_welcomeSent (s : EmailState) (t : EvType) (e : EmailEvent) :
    (setEvent s t e).welcomeSent = s.welcomeSent := by
  cases t <;> rfl

theorem setEvent_lastAuthEventTime (s : EmailState) (t : EvType) (e : EmailEvent) :
    (setEvent s t e).lastAuthEventTime = s.lastAuthEventTime := by
  cases t <;> rfl

theorem setEvent_lastLoginEmailAt (s : EmailState) (t : EvType) (e : EmailEvent) :
    (setEvent s t e).lastLoginEmailAt = s.lastLoginEmailAt := by
  cases t <;> rfl

theorem setEvent_welcome_loginEvent (s : EmailState) (e : EmailEvent) :
    (setEvent s EvType.welcome e).loginEvent = s.loginEvent := rfl

theorem setEvent_login_welcomeEvent (s : EmailState) (e : EmailEvent) :
    (setEvent s EvType.login e).welcomeEvent = s.welcomeEvent := rfl

/-- The claim step is a no-op exactly on an existing same-id entry whose
status is not failed. -/
theorem claim_noop (s : EmailState) (t : EvType) (a : Option Int) (now : Int)
    (h : alreadyClaimed (getEvent s t) (buildEmailEventId (evTypeName t) a now) = true) :
    claimEmailEventInState s t a now =
      ({ claimed := false
         eventId := buildEmailEventId (evTypeName t) a now
         event := getEvent s t }, s) := by
  simp [claimEmailEventInState, h]

/-- The claim step claims and writes the pending entry whenever the
already-claimed test fails. -/
theorem claim_fresh (s : EmailState) (t : EvType) (a : Option Int) (now : Int)
    (h : alreadyClaimed (getEvent s t) (buildEmailEventId (evTypeName t) a now) = false) :
    claimEmailEventInState s t a now =
      ({ claimed := true
         eventId := buildEmailEventId (evTypeName t) a now
         event := some (pendingEventFor t a now) }, setEvent s t (pendingEventFor t a now)) := by
  simp [claimEmailEventInState, h]

/-- An existing failed entry never blocks a claim. -/
theorem alreadyClaimed_of_failed (existing : Option EmailEvent) (eventId : String)
    (e : EmailEvent) (h : existing = some e) (hf : e.status = Status.failed) :
    alreadyClaimed existing eventId = false := by
  subst h
  simp [alreadyClaimed, hf]

theorem sendPhase_not_needed (t : EvType) (s : EmailState) (a : Option Int)
    (now tDone : Int) (ok : Bool) :
    sendPhase false t s a now tDone ok = Sum.inr (false, none, s) := rfl

/-- A send phase whose claim is blocked neither sends nor changes state. -/
theorem sendPhase_noop (t : EvType) (s : EmailState) (a : Option Int)
    (now tDone : Int) (ok : Bool)
    (h : alreadyClaimed (getEvent s t) (buildEmailEventId (evTypeName t) a now) = true) :
    sendPhase true t s a now tDone ok = Sum.inr (false, none, s) := by
  simp [sendPhase, claim_noop s t a now h]

/-- A send phase that claims and whose provider call succeeds. -/
theorem sendPhase_sent (t : EvType) (s : EmailState) (a : Option Int)
    (now tDone : Int)
    (h : alreadyClaimed (getEvent s t) (buildEmailEventId (evTypeName t) a now) = false) :
    sendPhase true t s a now tDone true =
      Sum.inr (true, some { pendingEventFor t a now with sentAt := some tDone },
        setEvent s t (pendingEventFor t a now)) := by
  simp [sendPhase, claim_fresh s t a now h]

/-- A send phase that claims and whose provider call fails overwrites the
freshly claimed entry with the failed record and aborts. -/
theorem sendPhase_failed (t : EvType) (s : EmailState) (a : Option Int)
    (now tDone : Int)
    (h : alreadyClaimed (getEvent s t) (buildEmailEventId (evTypeName t) a now) = false) :
    sendPhase true t s a now tDone false =
      Sum.inl (setEvent s t (buildEventUpdate (pendingEventFor t a now) Status.failed tDone)) := by
  simp [sendPhase, claim_fresh s t a now h, setEvent_setEvent]

/-!  Helper lemmas about the send plan.  -/

/-- The two plan flags are mutually exclusive: shouldSendLogin is defined as
the conjunction of the negation of shouldSendWelcome with the
non-duplicate test. -/
theorem plan_exclusive (s : EmailState) (now : Int) (a : Option Int) (cd : Int)
    (h : (computeEmailPlan s now a cd).shouldSendLogin = true) :
    (computeEmailPlan s now a cd).shouldSendWelcome = false := by
  cases hw : s.welcomeSent <;> simp [computeEmailPlan, hw] at h ⊢

/-- shouldSendLogin forces welcomeSent. -/
theorem plan_login_welcomeSent (s : EmailState) (now : Int) (a : Option Int) (cd : Int)
    (h : (computeEmailPlan s now a cd).shouldSendLogin = true) :
    s.welcomeSent = true := by
  cases hw : s.welcomeSent <;> simp [computeEmailPlan, hw] at h ⊢

theorem plan_welcome_of_welcomeSent_false (s : EmailState) (now : Int) (a : Option Int)
    (cd : Int) (hw : s.welcomeSent = false) :
    (computeEmailPlan s now a cd).shouldSendWelcome = true := by
  simp [computeEmailPlan, hw]

theorem plan_no_welcome_of_welcomeSent (s : EmailState) (now : Int) (a : Option Int)
    (cd : Int) (hw : s.welcomeSent = true) :
    (computeEmailPlan s now a cd).shouldSendWelcome = false := by
  simp [computeEmailPlan, hw]

/-- A nonzero authTimeMs equal to the recorded lastAuthEventTime makes the
invocation a duplicate, so shouldSendLogin is false. -/
theorem plan_no_login_of_duplicate (s : EmailState) (now : Int) (v : Int) (cd : Int)
    (hv : v ≠ 0) (hlat : s.lastAuthEventTime = some v) :
    (computeEmailPlan s now (some v) cd).shouldSendLogin = false := by
  simp [computeEmailPlan, hlat, jsTruthy, jsVal, hv]

/-!  Path lemmas for a whole dispatcher invocation.  -/

theorem runDispatch_skipped (s0 : EmailState) (tm : EmailTimes) (a : Option Int) (cd : Int)
    (em dn : String) (wOk lOk : Bool)
    (hsw : (computeEmailPlan s0 tm.now a cd).shouldSendWelcome = false)
    (hsl : (computeEmailPlan s0 tm.now a cd).shouldSendLogin = false) :
    runDispatch s0 tm a cd em dn wOk lOk =
      { response := DispatchResult.skipped
        sentWelcomeEmail := false
        sentLoginEmail := false
        finalState := s0 } := by
  simp [runDispatch, hsw, hsl]

theorem runDispatch_no_welcome_email (s0 : EmailState) (tm : EmailTimes) (a : Option Int)
    (cd : Int) (em dn : String) (wOk lOk : Bool)
    (hsw : (computeEmailPlan s0 tm.now a cd).shouldSendWelcome = false) :
    (runDispatch s0 tm a cd em dn wOk lOk).sentWelcomeEmail = false := by
  simp only [runDispatch, hsw, sendPhase_not_needed]
  split
  · rfl
  · split
    · rfl
    · split <;> rfl

theorem runDispatch_no_login_email (s0 : EmailState) (tm : EmailTimes) (a : Option Int)
    (cd : Int) (em dn : String) (wOk lOk : Bool)
    (hsl : (computeEmailPlan s0 tm.now a cd).shouldSendLogin = false) :
    (runDispatch s0 tm a cd em dn wOk lOk).sentLoginEmail = false := by
  simp only [runDispatch, hsl, sendPhase_not_needed]
  split
  · rfl
  · split
    · rfl
    · split <;> rfl

/-- A blocked welcome claim makes the whole invocation a no-op that answers
ok with both flags false. -/
theorem runDispatch_welcome_noop (s0 : EmailState) (tm : EmailTimes) (a : Option Int)
    (cd : Int) (em dn : String) (wOk lOk : Bool)
    (hsw : (computeEmailPlan s0 tm.now a cd).shouldSendWelcome = true)
    (hac : alreadyClaimed (getEvent s0 EvType.welcome)
      (buildEmailEventId "welcome" a tm.now) = true) :
    runDispatch s0 tm a cd em dn wOk lOk =
      { response := DispatchResult.ok false false
        sentWelcomeEmail := false
        sentLoginEmail := false
        finalState := s0 } := by
  have hsl : (computeEmailPlan s0 tm.now a cd).shouldSendLogin = false := by
    cases h : (computeEmailPlan s0 tm.now a cd).shouldSendLogin
    · rfl
    · have := plan_exclusive s0 tm.now a cd h
      rw [hsw] at this
      exact absurd this (by simp)
  simp [runDispatch, hsw, hsl, sendPhase_noop _ _ _ _ _ _ hac, sendPhase_not_needed]

/-- A claimed welcome whose provider call fails: the entry is overwritten to
failed with the failure timestamp and the invocation aborts with 502,
leaving every other part of the state untouched. -/
theorem runDispatch_welcome_failed (s0 : EmailState) (tm : EmailTimes) (a : Option Int)
    (cd : Int) (em dn : String) (lOk : Bool)
    (hsw : (computeEmailPlan s0 tm.now a cd).shouldSendWelcome = true)
    (hac : alreadyClaimed (getEvent s0 EvType.welcome)
      (buildEmailEventId "welcome" a tm.now) = false) :
    runDispatch s0 tm a cd em dn false lOk =
      { response := DispatchResult.err502
        sentWelcomeEmail := false
        sentLoginEmail := false
        finalState := setEvent s0 EvType.welcome
          (buildEventUpdate (pendingEventFor EvType.welcome a tm.now)
            Status.failed tm.welcomeDone) } := by
  simp [runDispatch, hsw, sendPhase_failed _ _ _ _ _ hac]

/-- A claimed welcome whose provider call succeeds: the invocation answers
ok with sentWelcome true (login is never attempted alongside it) and the
final merge records welcomeSent. -/
theorem runDispatch_welcome_sent (s0 : EmailState) (tm : EmailTimes) (a : Option Int)
    (cd : Int) (em dn : String) (lOk : Bool)
    (hsw : (computeEmailPlan s0 tm.now a cd).shouldSendWelcome = true)
    (hac : alreadyClaimed (getEvent s0 EvType.welcome)
      (buildEmailEventId "welcome" a tm.now) = false) :
    (runDispatch s0 tm a cd em dn true lOk).response = DispatchResult.ok true false ∧
    (runDispatch s0 tm a cd em dn true lOk).sentWelcomeEmail = true ∧
    (runDispatch s0 tm a cd em dn true lOk).sentLoginEmail = false ∧
    (runDispatch s0 tm a cd em dn true lOk).finalState.welcomeSent = true := by
  have hsl : (computeEmailPlan s0 tm.now a cd).shouldSendLogin = false := by
    cases h : (computeEmailPlan s0 tm.now a cd).shouldSendLogin
    · rfl
    · have := plan_exclusive s0 tm.now a cd h
      rw [hsw] at this
      exact absurd this (by simp)
  simp [runDispatch, hsw, hsl, sendPhase_sent _ _ _ _ _ hac, sendPhase_not_needed,
    applyUpdates, buildEmailStateUpdates, setEvent_welcomeSent]

/-- A blocked login claim makes the whole invocation a no-op that answers ok
with both flags false. -/
theorem runDispatch_login_noop (s0 : EmailState) (tm : EmailTimes) (a : Option Int)
    (cd : Int) (em dn : String) (wOk lOk : Bool)
    (hsl : (computeEmailPlan s0 tm.now a cd).shouldSendLogin = true)
    (hac : alreadyClaimed (getEvent s0 EvType.login)
      (buildEmailEventId "login" a tm.now) = true) :
    runDispatch s0 tm a cd em dn wOk lOk =
      { response := DispatchResult.ok false false
        sentWelcomeEmail := false
        sentLoginEmail := false
        finalState := s0 } := by
  have hsw := plan_exclusive s0 tm.now a cd hsl
  simp [runDispatch, hsw, hsl, sendPhase_noop _ _ _ _ _ _ hac, sendPhase_not_needed]

/-- A claimed login whose provider call fails: the entry is overwritten to
failed with the failure timestamp and the invocation aborts with 502,
leaving the welcome entry and every top-level field untouched. -/
theorem runDispatch_login_failed (s0 : EmailState) (tm : EmailTimes) (a : Option Int)
    (cd : Int) (em dn : String) (wOk : Bool)
    (hsl : (computeEmailPlan s0 tm.now a cd).shouldSendLogin = true)
    (hac : alreadyClaimed (getEvent s0 EvType.login)
      (buildEmailEventId "login" a tm.now) = false) :
    runDispatch s0 tm a cd em dn wOk false =
      { response := DispatchResult.err502
        sentWelcomeEmail := false
        sentLoginEmail := false
        finalState := setEvent s0 EvType.login
          (buildEventUpdate (pendingEventFor EvType.login a tm.now)
            Status.failed tm.loginDone) } := by
  have hsw := plan_exclusive s0 tm.now a cd hsl
  simp [runDispatch, hsw, hsl, sendPhase_failed _ _ _ _ _ hac, sendPhase_not_needed]

/-- A claimed login whose provider call succeeds: the invocation answers ok
with sentLogin true, keeps welcomeSent, and records the nonzero auth instant
as lastAuthEventTime. -/
theorem runDispatch_login_sent (s0 : EmailState) (tm : EmailTimes) (a : Option Int)
    (cd : Int) (em dn : String) (wOk : Bool)
    (hsl : (computeEmailPlan s0 tm.now a cd).shouldSendLogin = true)
    (hac : alreadyClaimed (getEvent s0 EvType.login)
      (buildEmailEventId "login" a tm.now) = false) :
    (runDispatch s0 tm a cd em dn wOk true).response = DispatchResult.ok false true ∧
    (runDispatch s0 tm a cd em dn wOk true).sentWelcomeEmail = false ∧
    (runDispatch s0 tm a cd em dn wOk true).sentLoginEmail = true ∧
    (runDispatch s0 tm a cd em dn wOk true).finalState.welcomeSent = s0.welcomeSent ∧
    (jsTruthy a = true →
      (runDispatch s0 tm a cd em dn wOk true).finalState.lastAuthEventTime = a) := by
  have hsw := plan_exclusive s0 tm.now a cd hsl
  refine ⟨?_, ?_, ?_, ?_, ?_⟩ <;>
    simp [runDispatch, hsw, hsl, sendPhase_sent _ _ _ _ _ hac, sendPhase_not_needed,
      applyUpdates, buildEmailStateUpdates, setEvent_welcomeSent, setEvent_lastAuthEventTime]
  intro h
  cases a with
  | none => simp [jsTruthy] at h
  | some v => simp [h]

/-!  Helper lemmas for the rate limiter.  -/

theorem checkRateLimit_fresh (config : RateLimitConfig) (t : Int) :
    checkRateLimit none config t =
      ({ allowed := true, remaining := config.maxRequests - 1, resetAt := t + config.windowMs },
       { count := 1, resetAt := t + config.windowMs }) := rfl

theorem checkRateLimit_within (e : RateLimitEntry) (config : RateLimitConfig) (t : Int)
    (h : t < e.resetAt) :
    checkRateLimit (some e) config t =
      ({ allowed := decide (e.count + 1 ≤ config.maxRequests)
         remaining := config.maxRequests - (e.count + 1)
         resetAt := e.resetAt },
       { count := e.count + 1, resetAt := e.resetAt }) := by
  simp only [checkRateLimit]
  rw [if_neg (not_le.mpr h)]

theorem checkRateLimit_reset (e : RateLimitEntry) (config : RateLimitConfig) (t : Int)
    (h : t ≥ e.resetAt) :
    checkRateLimit (some e) config t =
      ({ allowed := true, remaining := config.maxRequests - 1, resetAt := t + config.windowMs },
       { count := 1, resetAt := t + config.windowMs }) := by
  simp only [checkRateLimit]
  rw [if_pos h]

/-!  Claim theorems.  -/

/-- C2 counterexample: with authTimeMs present but equal to 0 and a recorded
lastAuthEventTime of 1000, the condition of the claim (both non-null and
authTimeMs at most lastAuthEventTime) holds, yet the code leaves
isDuplicateAuthEvent false, because the truthiness guard treats the zero
timestamp as absent.  The spec-worded plan function disagrees with the code
at this input. -/
theorem claim_C2_counterexample :
    (computeEmailPlan { welcomeSent := true, lastAuthEventTime := some 1000 } 0
        (some 0) 0).isDuplicateAuthEvent = false ∧
    ((some (0 : Int)) ≠ (none : Option Int) ∧ (some (1000 : Int)) ≠ (none : Option Int) ∧
      (0 : Int) ≤ 1000) ∧
    (computeEmailPlanSpec { welcomeSent := true, lastAuthEventTime := some 1000 } 0
        (some 0) 0).isDuplicateAuthEvent = true := by
  refine ⟨rfl, ⟨by decide, by decide, by decide⟩, rfl⟩

/-- C2 amended: the send-plan function equals the spec formula with
present-and-nonzero tests in place of non-null tests: shouldSendWelcome is
the negation of welcomeSent; isDuplicateAuthEvent holds exactly when both
authTimeMs and lastAuthEventTime are present and nonzero and authTimeMs is
at most lastAuthEventTime; shouldSendLogin is the conjunction of the two
negations, further suppressed when authTimeMs is absent or zero, a positive
cooldown is configured, lastLoginEmailAt is present and nonzero, and now
minus lastLoginEmailAt is below the cooldown. -/
theorem claim_C2_theorem (s : EmailState) (now : Int) (a : Option Int) (cd : Int) :
    computeEmailPlan s now a cd = computeEmailPlanAmended s now a cd := by
  unfold computeEmailPlan computeEmailPlanAmended
  cases a with
  | none =>
    cases hlle : s.lastLoginEmailAt with
    | none =>
      simp [isDuplicateAuthEventAmended, loginCooldownSuppressedAmended, jsTruthy, jsVal, hlle]
    | some v =>
      simp only [isDuplicateAuthEventAmended, loginCooldownSuppressedAmended, jsTruthy,
        jsVal, hlle]
      by_cases h1 : cd > 0 <;> by_cases h2 : v = 0 <;> by_cases h3 : now - v < cd <;>
        simp [h1, h2, h3]
  | some x =>
    cases hlat : s.lastAuthEventTime with
    | none =>
      cases hlle : s.lastLoginEmailAt with
      | none =>
        simp [isDuplicateAuthEventAmended, loginCooldownSuppressedAmended, jsTruthy, jsVal,
          hlat, hlle]
      | some v =>
        simp only [isDuplicateAuthEventAmended, loginCooldownSuppressedAmended, jsTruthy,
          jsVal, hlat, hlle]
        by_cases h0 : x = 0 <;> by_cases h1 : cd > 0 <;> by_cases h2 : v = 0 <;>
          by_cases h3 : now - v < cd <;> simp [h0, h1, h2, h3]
    | some y =>
      cases hlle : s.lastLoginEmailAt with
      | none =>
        simp only [isDuplicateAuthEventAmended, loginCooldownSuppressedAmended, jsTruthy,
          jsVal, hlat, hlle]
        by_cases h0 : x = 0 <;> by_cases h4 : y = 0 <;> by_cases h5 : x ≤ y <;>
          simp [h0, h4, h5]
      | some v =>
        simp only [isDuplicateAuthEventAmended, loginCooldownSuppressedAmended, jsTruthy,
          jsVal, hlat, hlle]
        by_cases h0 : x = 0 <;> by_cases h4 : y = 0 <;> by_cases h5 : x ≤ y <;>
          by_cases h1 : cd > 0 <;> by_cases h2 : v = 0 <;> by_cases h3 : now - v < cd <;>
          simp [h0, h1, h2, h3, h4, h5]

/-- C5: for every session duration D, session start and current time, the
session is unexpired exactly when now minus sessionStart is below D; a check
at sessionStart + D - 1 always finds the session live; and whenever now
minus sessionStart reaches D, the expiry check invokes forceSessionLogout,
which clears both persisted credential keys and both session keys. -/
theorem claim_C5_theorem (D start now : Int) (st : ClientStorage) :
    (isSessionExpired D start now = false ↔ now - start < D) ∧
    isSessionExpired D start (start + D - 1) = false ∧
    (now - start ≥ D →
      checkSessionExpiry D start now st =
        (true, { accessTokenKey := none, legacyAccessTokenKey := none,
                 sessionStartKey := none, legacySessionStartKey := none })) := by
  refine ⟨?_, ?_, ?_⟩
  · simp only [isSessionExpired, decide_eq_false_iff_not, not_le]
  · simp only [isSessionExpired, decide_eq_false_iff_not, not_le]
    omega
  · intro h
    simp [checkSessionExpiry, isSessionExpired, forceSessionLogoutStorage,
      persistSessionStart, persistTokenEntry, h]

/-- C5 witness: with D = 10 and a session started at 0, an invocation at
time 10 forces the logout and wipes the signed-in storage. -/
theorem claim_C5_witness :
    checkSessionExpiry 10 0 10 storageSignedIn =
      (true, { accessTokenKey := none, legacyAccessTokenKey := none,
               sessionStartKey := none, legacySessionStartKey := none }) :=
  (claim_C5_theorem 10 0 10 storageSignedIn).2.2 (by decide)

/-- C7: with the default limit of 5 requests per 600000 ms window, requests
1 through 5 from one IP inside the window are allowed, the 6th inside the
window is denied with a Retry-After of at least one second, and the first
request at or after the reset instant is allowed again. -/
theorem claim_C7_theorem (t1 t2 t3 t4 t5 t6 t7 : Int)
    (h2 : t2 < t1 + 600000) (h3 : t3 < t1 + 600000) (h4 : t4 < t1 + 600000)
    (h5 : t5 < t1 + 600000) (h6 : t6 < t1 + 600000) (h7 : t7 ≥ t1 + 600000) :
    (processRequests none defaultRateLimitConfig [t1, t2, t3, t4, t5, t6, t7]).1.map
        RateLimitResult.allowed = [true, true, true, true, true, false, true] ∧
    retryAfterSeconds (t1 + 600000) t6 ≥ 1 := by
  constructor
  · have s1 : checkRateLimit none defaultRateLimitConfig t1 =
        ({ allowed := true, remaining := 4, resetAt := t1 + 600000 },
         { count := 1, resetAt := t1 + 600000 }) := rfl
    have s2 : checkRateLimit (some { count := 1, resetAt := t1 + 600000 })
        defaultRateLimitConfig t2 =
        ({ allowed := true, remaining := 3, resetAt := t1 + 600000 },
         { count := 2, resetAt := t1 + 600000 }) := by
      rw [checkRateLimit_within _ _ _ h2]; rfl
    have s3 : checkRateLimit (some { count := 2, resetAt := t1 + 600000 })
        defaultRateLimitConfig t3 =
        ({ allowed := true, remaining := 2, resetAt := t1 + 600000 },
         { count := 3, resetAt := t1 + 600000 }) := by
      rw [checkRateLimit_within _ _ _ h3]; rfl
    have s4 : checkRateLimit (some { count := 3, resetAt := t1 + 600000 })
        defaultRateLimitConfig t4 =
        ({ allowed := true, remaining := 1, resetAt := t1 + 600000 },
         { count := 4, resetAt := t1 + 600000 }) := by
      rw [checkRateLimit_within _ _ _ h4]; rfl
    have s5 : checkRateLimit (some { count := 4, resetAt := t1 + 600000 })
        defaultRateLimitConfig t5 =
        ({ allowed := true, remaining := 0, resetAt := t1 + 600000 },
         { count := 5, resetAt := t1 + 600000 }) := by
      rw [checkRateLimit_within _ _ _ h5]; rfl
    have s6 : checkRateLimit (some { count := 5, resetAt := t1 + 600000 })
        defaultRateLimitConfig t6 =
        ({ allowed := false, remaining := 0, resetAt := t1 + 600000 },
         { count := 6, resetAt := t1 + 600000 }) := by
      rw [checkRateLimit_within _ _ _ h6]; rfl
    have s7 : checkRateLimit (some { count := 6, resetAt := t1 + 600000 })
        defaultRateLimitConfig t7 =
        ({ allowed := true, remaining := 4, resetAt := t7 + 600000 },
         { count := 1, resetAt := t7 + 600000 }) := by
      rw [checkRateLimit_reset _ _ _ h7]; rfl
    simp only [processRequests, List.map, s1, s2, s3, s4, s5, s6, s7]
  · exact le_max_left 1 _

/-- C7 witness: six requests at 0, 1, 2, 3, 4, 5 and one at the reset
instant 600000. -/
theorem claim_C7_witness :
    (processRequests none defaultRateLimitConfig [0, 1, 2, 3, 4, 5, 600000]).1.map
        RateLimitResult.allowed = [true, true, true, true, true, false, true] ∧
    retryAfterSeconds ((0 : Int) + 600000) 5 ≥ 1 :=
  claim_C7_theorem 0 1 2 3 4 5 600000 (by decide) (by decide) (by decide) (by decide)
    (by decide) (by decide)

/-- C8 counterexample: two concurrent non-interactive getAccessToken calls
on the native platform while no token is cached perform two silent refresh
network calls, not one: the hook holds no pending-refresh handle, so
concurrent callers are not coalesced. -/
theorem claim_C8_counterexample :
    concurrentGetAccessTokenNetworkCalls 2 true false false true = 2 ∧
    concurrentGetAccessTokenNetworkCalls 2 true false false true ≠ 1 := by
  refine ⟨rfl, by decide⟩

/-- C8 amended: n concurrent non-interactive getAccessToken calls that all
begin while no token exists trigger exactly n silent refresh network calls
on the native platform (one per caller, with no coalescing), and zero
network calls on the web platform, where getAccessToken never refreshes. -/
theorem claim_C8_amended (n : Nat) (silentSucceeds : Bool) :
    concurrentGetAccessTokenNetworkCalls n true false false silentSucceeds = n ∧
    (∀ interactive forceRefresh s2,
      concurrentGetAccessTokenNetworkCalls n false interactive forceRefresh s2 = 0) := by
  constructor
  · simp [concurrentGetAccessTokenNetworkCalls, getAccessTokenNetworkCalls,
      refreshAccessTokenNetworkCalls]
  · intro interactive forceRefresh s2
    simp [concurrentGetAccessTokenNetworkCalls, getAccessTokenNetworkCalls]

/-- C9: a verified assertion whose auth instant is exactly 0 is handled
identically to one with no auth instant at all: the whole dispatcher
invocation produces the same outcome for authTimeMs = some 0 and authTimeMs
= none on every state; the derived eventId falls back to the invocation
time; isDuplicateAuthEvent is never set; and a successful send never updates
lastAuthEventTime. -/
theorem claim_C9_theorem :
    (∀ s tm cd em dn wOk lOk,
      runDispatch s tm (some 0) cd em dn wOk lOk = runDispatch s tm none cd em dn wOk lOk) ∧
    (∀ ty fb, buildEmailEventId ty (some 0) fb = buildEmailEventId ty none fb ∧
      buildEmailEventId ty (some 0) fb = ty ++ "_" ++ toString fb) ∧
    (∀ s now cd, (computeEmailPlan s now (some 0) cd).isDuplicateAuthEvent = false) ∧
    (∀ em dn now sw sl,
      (buildEmailStateUpdates em dn now (some 0) sw sl).lastAuthEventTime = none) := by
  refine ⟨fun s tm cd em dn wOk lOk => rfl, fun ty fb => ⟨rfl, rfl⟩,
    fun s now cd => rfl, fun em dn now sw sl => rfl⟩

/-!  Remaining helper lemmas, then claims C1, C3, C4, C6, C10.  -/

/-- A failed entry never blocks a later claim for its type: the reclaim the
failure recording is designed to enable. -/
theorem claim_after_failure (s : EmailState) (t : EvType) (aF a2 : Option Int)
    (nowF tDone now2 : Int) :
    (claimEmailEventInState (setEvent s t (failedEventRecord t aF nowF tDone))
      t a2 now2).1.claimed = true := by
  have hg := getEvent_setEvent_same s t (failedEventRecord t aF nowF tDone)
  have hst : (failedEventRecord t aF nowF tDone).status = Status.failed := rfl
  simp [claimEmailEventInState, alreadyClaimed, hg, hst]

theorem toTokenState_shape (nowT : Int) (e : StoredTokenEntry) :
    toTokenState nowT e = { token := none, expiresAt := none } ∨
    (toTokenState nowT e).token = some e.token := by
  simp only [toTokenState]
  split
  · exact Or.inl rfl
  · exact Or.inr rfl

theorem stepToken_applySuccess_not_expired (s : TokenState) (tok : String) (storedAt : Int)
    (e : Option Int) :
    (stepToken s (TokenAction.applySuccess tok storedAt e)).tokenExpired = false := by
  simp only [stepToken]
  cases e with
  | none =>
    simp [computeExpiresAt, fallbackExpiresAt, ACCESS_TOKEN_LIFETIME_MS, jsTruthy, jsVal]
  | some x =>
    by_cases h1 : x > 0
    · have h0 : x ≠ 0 := by omega
      simp [computeExpiresAt, jsTruthy, jsVal, h0, h1]
    · simp [computeExpiresAt, fallbackExpiresAt, ACCESS_TOKEN_LIFETIME_MS, jsTruthy, jsVal, h1]

/-- C1 counterexample: two dispatcher invocations for the same user carrying
the same (eventType, authTimeMs) pair with authTimeMs null, against a state
whose welcome was already sent, each deliver a login email: with a falsy
authTimeMs the eventId falls back to the per-invocation current time, so the
second invocation derives a different eventId and is not recognized as a
duplicate. -/
theorem claim_C1_counterexample :
    (runDispatch stateWelcomeDone timesAt1000 none 0 "u@example.com" "U"
      true true).sentLoginEmail = true ∧
    (runDispatch (runDispatch stateWelcomeDone timesAt1000 none 0 "u@example.com" "U"
        true true).finalState
      timesAt2000 none 0 "u@example.com" "U" true true).sentLoginEmail = true := by
  refine ⟨rfl, rfl⟩

/-- C1 amended: for invocations carrying the same non-null and nonzero
authTimeMs, at most one of any two consecutive invocations physically sends
an email of each event type; and the claim step is a no-op exactly as the
claim describes: an existing entry for the type with the same eventId and
status other than failed makes the claim report not-claimed and leave the
state untouched. -/
theorem claim_C1_amended (s0 : EmailState) (tm1 tm2 : EmailTimes) (v : Int) (cd : Int)
    (em dn : String) (wOk1 lOk1 wOk2 lOk2 : Bool) (hv : v ≠ 0) :
    (¬((runDispatch s0 tm1 (some v) cd em dn wOk1 lOk1).sentWelcomeEmail = true ∧
       (runDispatch (runDispatch s0 tm1 (some v) cd em dn wOk1 lOk1).finalState
          tm2 (some v) cd em dn wOk2 lOk2).sentWelcomeEmail = true)) ∧
    (¬((runDispatch s0 tm1 (some v) cd em dn wOk1 lOk1).sentLoginEmail = true ∧
       (runDispatch (runDispatch s0 tm1 (some v) cd em dn wOk1 lOk1).finalState
          tm2 (some v) cd em dn wOk2 lOk2).sentLoginEmail = true)) ∧
    (∀ s t now ev, getEvent s t = some ev →
      ev.eventId = buildEmailEventId (evTypeName t) (some v) now →
      ev.status ≠ Status.failed →
      claimEmailEventInState s t (some v) now =
        ({ claimed := false
           eventId := buildEmailEventId (evTypeName t) (some v) now
           event := some ev }, s)) := by
  refine ⟨?_, ?_, ?_⟩
  · rintro ⟨h1, h2⟩
    by_cases hsw : (computeEmailPlan s0 tm1.now (some v) cd).shouldSendWelcome = true
    · by_cases hac : alreadyClaimed (getEvent s0 EvType.welcome)
          (buildEmailEventId "welcome" (some v) tm1.now) = true
      · rw [runDispatch_welcome_noop s0 tm1 (some v) cd em dn wOk1 lOk1 hsw hac] at h1
        exact absurd h1 (by simp)
      · rw [Bool.not_eq_true] at hac
        cases wOk1 with
        | false =>
          rw [runDispatch_welcome_failed s0 tm1 (some v) cd em dn lOk1 hsw hac] at h1
          exact absurd h1 (by simp)
        | true =>
          have hws := runDispatch_welcome_sent s0 tm1 (some v) cd em dn lOk1 hsw hac
          have hsw2 := plan_no_welcome_of_welcomeSent
            (runDispatch s0 tm1 (some v) cd em dn true lOk1).finalState
            tm2.now (some v) cd hws.2.2.2
          rw [runDispatch_no_welcome_email _ tm2 (some v) cd em dn wOk2 lOk2 hsw2] at h2
          exact absurd h2 (by simp)
    · rw [Bool.not_eq_true] at hsw
      rw [runDispatch_no_welcome_email s0 tm1 (some v) cd em dn wOk1 lOk1 hsw] at h1
      exact absurd h1 (by simp)
  · rintro ⟨h1, h2⟩
    by_cases hsl : (computeEmailPlan s0 tm1.now (some v) cd).shouldSendLogin = true
    · by_cases hac : alreadyClaimed (getEvent s0 EvType.login)
          (buildEmailEventId "login" (some v) tm1.now) = true
      · rw [runDispatch_login_noop s0 tm1 (some v) cd em dn wOk1 lOk1 hsl hac] at h1
        exact absurd h1 (by simp)
      · rw [Bool.not_eq_true] at hac
        cases lOk1 with
        | false =>
          rw [runDispatch_login_failed s0 tm1 (some v) cd em dn wOk1 hsl hac] at h1
          exact absurd h1 (by simp)
        | true =>
          have hls := runDispatch_login_sent s0 tm1 (some v) cd em dn wOk1 hsl hac
          have htr : jsTruthy (some v) = true := by simp [jsTruthy, hv]
          have hlat := hls.2.2.2.2 htr
          have hsl2 := plan_no_login_of_duplicate
            (runDispatch s0 tm1 (some v) cd em dn wOk1 true).finalState
            tm2.now v cd hv hlat
          rw [runDispatch_no_login_email _ tm2 (some v) cd em dn wOk2 lOk2 hsl2] at h2
          exact absurd h2 (by simp)
    · rw [Bool.not_eq_true] at hsl
      rw [runDispatch_no_login_email s0 tm1 (some v) cd em dn wOk1 lOk1 hsl] at h1
      exact absurd h1 (by simp)
  · intro s t now ev hEv hId hSt
    have hac : alreadyClaimed (getEvent s t)
        (buildEmailEventId (evTypeName t) (some v) now) = true := by
      rw [hEv]
      simp [alreadyClaimed, hId, hSt]
    have := claim_noop s t (some v) now hac
    rw [hEv] at this
    exact this

/-- C1 witness: a fresh user, authTimeMs 3600000 in both invocations; the
welcome email is delivered at most once across the pair. -/
theorem claim_C1_witness :
    ¬((runDispatch {} timesAt1000 (some 3600000) 0 "u@example.com" "U"
        true true).sentWelcomeEmail = true ∧
      (runDispatch (runDispatch {} timesAt1000 (some 3600000) 0 "u@example.com" "U"
          true true).finalState
        timesAt2000 (some 3600000) 0 "u@example.com" "U" true true).sentWelcomeEmail = true) :=
  (claim_C1_amended {} timesAt1000 timesAt2000 3600000 0 "u@example.com" "U"
    true true true true (by decide)).1

/-- C3: when the provider call for a freshly claimed event fails, the
dispatcher overwrites exactly that event entry with a failed record carrying
the failure timestamp, answers 502, and leaves the other event entry and
every top-level field of the state untouched (the full final state is the
original state with only that entry replaced); a later retry can reclaim the
failed entry, for any authTimeMs.  Both the welcome and the login event type
are covered. -/
theorem claim_C3_theorem (s0 : EmailState) (tm : EmailTimes) (a : Option Int) (cd : Int)
    (em dn : String) (wOk lOk : Bool) :
    ((computeEmailPlan s0 tm.now a cd).shouldSendWelcome = true →
      alreadyClaimed (getEvent s0 EvType.welcome)
        (buildEmailEventId "welcome" a tm.now) = false →
      runDispatch s0 tm a cd em dn false lOk =
        { response := DispatchResult.err502
          sentWelcomeEmail := false
          sentLoginEmail := false
          finalState := setEvent s0 EvType.welcome
            (failedEventRecord EvType.welcome a tm.now tm.welcomeDone) } ∧
      (failedEventRecord EvType.welcome a tm.now tm.welcomeDone).status = Status.failed ∧
      (failedEventRecord EvType.welcome a tm.now tm.welcomeDone).failedAt =
        some tm.welcomeDone ∧
      (∀ a2 now2, (claimEmailEventInState
          (setEvent s0 EvType.welcome (failedEventRecord EvType.welcome a tm.now tm.welcomeDone))
          EvType.welcome a2 now2).1.claimed = true)) ∧
    ((computeEmailPlan s0 tm.now a cd).shouldSendLogin = true →
      alreadyClaimed (getEvent s0 EvType.login)
        (buildEmailEventId "login" a tm.now) = false →
      runDispatch s0 tm a cd em dn wOk false =
        { response := DispatchResult.err502
          sentWelcomeEmail := false
          sentLoginEmail := false
          finalState := setEvent s0 EvType.login
            (failedEventRecord EvType.login a tm.now tm.loginDone) } ∧
      (failedEventRecord EvType.login a tm.now tm.loginDone).status = Status.failed ∧
      (failedEventRecord EvType.login a tm.now tm.loginDone).failedAt = some tm.loginDone ∧
      (∀ a2 now2, (claimEmailEventInState
          (setEvent s0 EvType.login (failedEventRecord EvType.login a tm.now tm.loginDone))
          EvType.login a2 now2).1.claimed = true)) := by
  constructor
  · intro hsw hac
    refine ⟨?_, rfl, rfl, ?_⟩
    · simpa [failedEventRecord] using
        runDispatch_welcome_failed s0 tm a cd em dn lOk hsw hac
    · intro a2 now2
      exact claim_after_failure s0 EvType.welcome a a2 tm.now tm.welcomeDone now2
  · intro hsl hac
    refine ⟨?_, rfl, rfl, ?_⟩
    · simpa [failedEventRecord] using
        runDispatch_login_failed s0 tm a cd em dn wOk hsl hac
    · intro a2 now2
      exact claim_after_failure s0 EvType.login a a2 tm.now tm.loginDone now2

/-- C3 witness: a fresh user whose welcome provider call fails at time 1000
ends with a 502 and a failed welcome entry. -/
theorem claim_C3_witness :
    runDispatch {} timesAt1000 (some 3600000) 0 "u@example.com" "U" false true =
      { response := DispatchResult.err502
        sentWelcomeEmail := false
        sentLoginEmail := false
        finalState := setEvent {} EvType.welcome
          (failedEventRecord EvType.welcome (some 3600000) timesAt1000.now
            timesAt1000.welcomeDone) } :=
  ((claim_C3_theorem {} timesAt1000 (some 3600000) 0 "u@example.com" "U" true true).1
    (by decide) (by decide)).1

/-- C4 counterexample: clearTokenExpired resets the tokenExpired flag to
false without any refresh and without any network round trip, refuting the
claim that the flag only returns to false via an explicit successful
refresh. -/
theorem claim_C4_counterexample :
    stepToken { accessToken := none, accessTokenExpiresAt := none, tokenExpired := true }
        TokenAction.clearExpired =
      { accessToken := none, accessTokenExpiresAt := none, tokenExpired := false } ∧
    isNetworkAction TokenAction.clearExpired = false :=
  ⟨rfl, rfl⟩

/-- C4 amended: under the invariant that an expired state holds no token,
every step preserves that invariant; from an expired state, the only action
that can produce a state holding a token is the application of a token
obtained from a network round trip (clearTokenExpired and the sign-out paths
may reset the flag but never produce a token); and the passage of time (the
expiry poll) never clears the expired flag. -/
theorem claim_C4_amended (s : TokenState) (a : TokenAction)
    (hinv : s.tokenExpired = true → s.accessToken = none) :
    ((stepToken s a).tokenExpired = true → (stepToken s a).accessToken = none) ∧
    (s.tokenExpired = true → (stepToken s a).accessToken.isSome = true →
      isNetworkAction a = true) ∧
    (∀ now, s.tokenExpired = true →
      (stepToken s (TokenAction.pollTick now)).tokenExpired = true) := by
  refine ⟨?_, ?_, ?_⟩
  · cases a with
    | applySuccess tok storedAt e =>
      intro h
      rw [stepToken_applySuccess_not_expired] at h
      exact absurd h (by simp)
    | applyNull => intro h; rfl
    | expireA => intro h; rfl
    | clearExpired =>
      intro h
      exact absurd h (by simp [stepToken])
    | signOutA => intro h; rfl
    | forceLogoutA => intro h; rfl
    | pollTick now =>
      simp only [stepToken]
      split
      · intro h; rfl
      · intro h; exact hinv h
  · intro hexp hsome
    cases a with
    | applySuccess tok storedAt e => rfl
    | applyNull => exact absurd hsome (by simp [stepToken])
    | expireA => exact absurd hsome (by simp [stepToken])
    | clearExpired =>
      have : (stepToken s TokenAction.clearExpired).accessToken = none := hinv hexp
      rw [this] at hsome
      exact absurd hsome (by simp)
    | signOutA => exact absurd hsome (by simp [stepToken])
    | forceLogoutA => exact absurd hsome (by simp [stepToken])
    | pollTick now =>
      revert hsome
      simp only [stepToken]
      split
      · intro hsome; exact absurd hsome (by simp)
      · intro hsome
        rw [hinv hexp] at hsome
        exact absurd hsome (by simp)
  · intro now hexp
    simp only [stepToken]
    split
    · rfl
    · exact hexp

/-- C4 witness: from an expired empty state, an expiry poll at time 7 keeps
the flag set. -/
theorem claim_C4_witness :
    (stepToken { accessToken := none, accessTokenExpiresAt := none, tokenExpired := true }
      (TokenAction.pollTick 7)).tokenExpired = true :=
  (claim_C4_amended
    { accessToken := none, accessTokenExpiresAt := none, tokenExpired := true }
    (TokenAction.pollTick 7) (fun _ => rfl)).2.2 7 rfl

/-- C6 counterexample: with the current key absent and an expired entry
under the legacy key, readStoredToken yields no token and performs no
migration, but it also does not drop the expired legacy entry: the storage
is returned unchanged and the legacy key still holds the entry, contrary to
the claim that the expired legacy entry is dropped. -/
theorem claim_C6_counterexample :
    (readStoredToken storageWithExpiredLegacy 200).1.token = none ∧
    (readStoredToken storageWithExpiredLegacy 200).2 = storageWithExpiredLegacy ∧
    (readStoredToken storageWithExpiredLegacy 200).2.legacyAccessTokenKey =
      some legacyExpiredEntry :=
  ⟨rfl, rfl, rfl⟩

/-- C6 amended: on a read that finds the current key absent and a legacy
entry present, a legacy token still within its validity window is migrated
(copied into the current key, legacy key deleted); an expired legacy token
yields no token and no migration, and the expired legacy entry is left in
place, to be cleared only by later expiry or sign-out writes. -/
theorem claim_C6_amended (st : ClientStorage) (nowT : Int) (legacy : StoredTokenEntry)
    (hcur : st.accessTokenKey = none) (hleg : st.legacyAccessTokenKey = some legacy) :
    ((toTokenState nowT legacy).token.isSome = true →
      readStoredToken st nowT =
        (toTokenState nowT legacy,
         { st with accessTokenKey := some legacy, legacyAccessTokenKey := none })) ∧
    ((toTokenState nowT legacy).token = none →
      readStoredToken st nowT = ({ token := none, expiresAt := none }, st) ∧
      (readStoredToken st nowT).2.legacyAccessTokenKey = some legacy) := by
  constructor
  · intro h
    simp [readStoredToken, hcur, hleg, h, persistTokenEntry]
  · intro h
    rcases toTokenState_shape nowT legacy with hs | hs
    · constructor
      · simp [readStoredToken, hcur, hleg, hs]
      · simp [readStoredToken, hcur, hleg, hs]
    · rw [h] at hs
      exact absurd hs (by simp)

/-- C6 witness: a legacy entry valid until 500000, read at 200, is migrated
into the current key and the legacy key is removed. -/
theorem claim_C6_witness :
    readStoredToken storageWithValidLegacy 200 =
      (toTokenState 200 legacyValidEntry,
       { storageWithValidLegacy with
          accessTokenKey := some legacyValidEntry
          legacyAccessTokenKey := none }) :=
  (claim_C6_amended storageWithValidLegacy 200 legacyValidEntry rfl rfl).1 (by decide)

/-- C10 counterexample: for a fresh user whose welcome send succeeds while
the login provider would fail, the handler answers 200 with sentWelcome true
and the merge-write runs (welcomeSent becomes true); no login send is even
attempted, so the 502-with-stuck-pending-welcome scenario of the claim does
not occur: shouldSendLogin is the conjunction of the negation of
shouldSendWelcome with the duplicate test, so welcome and login sends are
mutually exclusive within one invocation. -/
theorem claim_C10_counterexample :
    (runDispatch {} timesAt1000 (some 3600000) 0 "u@example.com" "U" true false).response =
      DispatchResult.ok true false ∧
    (runDispatch {} timesAt1000 (some 3600000) 0 "u@example.com" "U"
      true false).finalState.welcomeSent = true ∧
    (runDispatch {} timesAt1000 (some 3600000) 0 "u@example.com" "U"
      true false).sentLoginEmail = false :=
  ⟨rfl, rfl, rfl⟩

/-- C10 amended: welcome and login are mutually exclusive within one
invocation (shouldSendLogin forces shouldSendWelcome false), so a welcome
success can never be followed by a login failure in the same invocation;
whenever a claimed welcome send succeeds, the final merge-write always runs:
the response is 200 with sentWelcome true, welcomeSent is recorded true, and
no login email is sent. -/
theorem claim_C10_amended (s0 : EmailState) (tm : EmailTimes) (a : Option Int) (cd : Int)
    (em dn : String) (lOk : Bool) :
    ((computeEmailPlan s0 tm.now a cd).shouldSendWelcome = true →
      (computeEmailPlan s0 tm.now a cd).shouldSendLogin = false) ∧
    ((computeEmailPlan s0 tm.now a cd).shouldSendWelcome = true →
      alreadyClaimed (getEvent s0 EvType.welcome)
        (buildEmailEventId "welcome" a tm.now) = false →
      (runDispatch s0 tm a cd em dn true lOk).response = DispatchResult.ok true false ∧
      (runDispatch s0 tm a cd em dn true lOk).finalState.welcomeSent = true ∧
      (runDispatch s0 tm a cd em dn true lOk).sentLoginEmail = false) := by
  constructor
  · intro hsw
    cases h : (computeEmailPlan s0 tm.now a cd).shouldSendLogin
    · rfl
    · have := plan_exclusive s0 tm.now a cd h
      rw [hsw] at this
      exact absurd this (by simp)
  · intro hsw hac
    obtain ⟨hr, _, hl, hw⟩ := runDispatch_welcome_sent s0 tm a cd em dn lOk hsw hac
    exact ⟨hr, hw, hl⟩

/-- C10 witness: the concrete welcome-succeeds, login-provider-down
invocation answers 200 ok. -/
theorem claim_C10_witness :
    (runDispatch {} timesAt1000 (some 3600000) 0 "u@example.com" "U" true false).response =
      DispatchResult.ok true false :=
  ((claim_C10_amended {} timesAt1000 (some 3600000) 0 "u@example.com" "U" false).2
    (by decide) (by decide)).1
